import Mathlib

/-!
Verification development for the WildGuard dispatch system.

Shallow embedding of the core components, translated from the Python
source files:

* `src/broker.py` — the mailbox registry (`Broker.publish`),
* `src/crewai_client.py` — the reasoning-oracle client and its stub
  fallbacks (`CrewAIClient.run_agent`, `CrewAIClient._stub_response`),
* `src/config/yala_sanctuary.py` — static terrain/vehicle tables,
* `src/agents/proximity_dispatcher_agent.py` — responder-unit logic
  (haversine distance, ETA, capability assessment, message handlers),
* `src/agents/coordinator_agent.py` — the dispatch coordinator's
  collection round and decision phase,
* `src/agents/triage_agent.py` — the schema-validation fallback path.

Python floats are modelled as `ℚ` wherever only field arithmetic
(`+`, `*`, `/`, `min`) occurs, and as `ℝ` where transcendental
functions (`sin`, `cos`, `asin`, `sqrt`) are involved (the haversine
distance).  Python's `list.sort` (Timsort) is modelled by a stable
insertion sort: a stable ascending sort's output is uniquely
determined, so the two agree.  Console `print` calls and purely
human-readable strings (the `reasoning` field of an availability
answer, the free text inside a dispatch acknowledgement) are not part
of the model; no modelled logic inspects them.
-/

/-! ## JSON-like values

Structured payloads the Python code passes around as dicts/lists are
modelled by a small JSON value type.  Numbers are `ℚ`. -/

inductive JValue where
  | null
  | bool (b : Bool)
  | num (q : ℚ)
  | str (s : String)
  | arr (elems : List JValue)
  | obj (fields : List (String × JValue))

/-- `d.get(k)` on a dict value: `none` when the key is absent or the
value is not a dict. -/
def jGet (v : JValue) (k : String) : Option JValue :=
  match v with
  | .obj fields => fields.lookup k
  | _ => none

/-- `d.get(k)` restricted to string results; `none` when absent or not
a string. -/
def jGetStr (v : JValue) (k : String) : Option String :=
  match jGet v k with
  | some (.str s) => some s
  | _ => none

/-- `d.get(k)` restricted to numeric results. -/
def jGetNum (v : JValue) (k : String) : Option ℚ :=
  match jGet v k with
  | some (.num q) => some q
  | _ => none

/-- Python's `int(·)` on a rational: truncation toward zero. -/
def pyInt (q : ℚ) : ℤ := Int.tdiv q.num q.den

/-- Python's `str.isalpha()`: non-empty and all alphabetic characters
(`Char.isAlpha`; the source's unicode categories beyond ASCII letters
are not relevant to any claim). -/
def pyIsalpha (s : String) : Bool := !s.isEmpty && s.all Char.isAlpha

/-- Python's `random.choice(l)` where the random draw is supplied as
an index `k` (reduced modulo the length, as any draw determines an
index). -/
def pyChoice (l : List String) (k : ℕ) : String := l.getD (k % l.length) ""

/-! ## Mailbox registry — `src/broker.py`

`Broker.__init__` creates `self.queues = {}`; `register` assigns
`self.queues[agent_name] = queue`; `publish` delivers as below.  A
Python dict is modelled as an insertion-ordered association list with
distinct keys.  The envelope fields are the ones `publish` reads
(`msg["to"]`, `msg["from"]`, `msg["id"]`); the payload is opaque to
the broker. -/

structure Envelope where
  id : String
  /-- the source dict key `"from"` -/
  sender : String
  /-- the source dict key `"to"` -/
  recipient : String
  performative : String
  /-- opaque payload; the broker never inspects it -/
  content : String
deriving DecidableEq

structure BrokerState where
  queues : List (String × List Envelope)
deriving DecidableEq

/-- Side-channel events: `publish` prints a line for an unknown
target (`src/broker.py` line 24). -/
inductive BrokerLog where
  | unknownTarget (target : String) (sender : String) (id : String)
deriving DecidableEq

/-- `Broker.register` (`src/broker.py` lines 9-11): assigns
`self.queues[agent_name] = queue`, overwriting any prior entry. -/
def Broker.register (b : BrokerState) (agent_name : String) (queue : List Envelope) :
    BrokerState :=
  if (b.queues.lookup agent_name).isSome then
    ⟨b.queues.map (fun p => if p.1 = agent_name then (agent_name, queue) else p)⟩
  else
    ⟨b.queues ++ [(agent_name, queue)]⟩

/-- `Broker.publish` (`src/broker.py` lines 13-24).  Broadcast appends
the message to every registered queue; a known specific target gets it
appended to its queue only; an unknown target drops the message and
logs.  The function is total: no branch raises. -/
def Broker.publish (b : BrokerState) (msg : Envelope) : BrokerState × List BrokerLog :=
  if msg.recipient = "broadcast" then
    (⟨b.queues.map (fun p => (p.1, p.2 ++ [msg]))⟩, [])
  else if (b.queues.lookup msg.recipient).isSome then
    (⟨b.queues.map (fun p => if p.1 = msg.recipient then (p.1, p.2 ++ [msg]) else p)⟩, [])
  else
    (b, [.unknownTarget msg.recipient msg.sender msg.id])

/-! ## Static configuration — `src/config/yala_sanctuary.py` -/

/-- `TERRAIN_TYPES.get(terrain_type, {}).get("speed_multiplier", 0.7)`
(`src/config/yala_sanctuary.py` lines 114-140 and the lookup in
`estimate_eta_minutes`): the five configured terrain multipliers with
the 0.7 fallback for unknown terrain. -/
def terrainSpeedMultiplier {α : Type} [DivisionRing α] (terrain_type : String) : α :=
  if terrain_type = "forest_dense" then 3/10
  else if terrain_type = "scrubland" then 7/10
  else if terrain_type = "grassland" then 1
  else if terrain_type = "wetland" then 1/5
  else if terrain_type = "road" then 3/2
  else 7/10

/-- `VEHICLE_SPECS.get(vehicle_type, {}).get("max_speed_kmh", 50)`
(`src/config/yala_sanctuary.py` lines 143-198): the configured
per-vehicle top speeds with the 50 fallback. -/
def vehicleMaxSpeed {α : Type} [DivisionRing α] (vehicle_type : String) : α :=
  if vehicle_type = "4x4_Ambulance" then 60
  else if vehicle_type = "4x4_Patrol" then 70
  else if vehicle_type = "Patrol_Jeep_1" then 65
  else if vehicle_type = "Patrol_Jeep_2" then 65
  else if vehicle_type = "Vet_Mobile_Unit" then 50
  else if vehicle_type = "Command_Vehicle" then 55
  else if vehicle_type = "Motorcycle" then 80
  else if vehicle_type = "Rescue_Jeep" then 60
  else if vehicle_type = "Rescue_Truck" then 45
  else 50

/-- `get_base_speed_kmh` (`src/config/yala_sanctuary.py` lines 256-258). -/
def get_base_speed_kmh {α : Type} [DivisionRing α] : α := 40

/-- `get_terrain_type` (`src/config/yala_sanctuary.py` lines 242-254).
Coordinates on the wire are decimal numbers, modelled as `ℚ`. -/
def get_terrain_type (lat lon : ℚ) : String :=
  if lon < 81.45 then "forest_dense"
  else if lat > 6.40 then "scrubland"
  else if lat < 6.30 then "grassland"
  else if 81.50 < lon ∧ lon < 81.57 then "wetland"
  else "scrubland"

/-! ## Wire-level data — availability answers and incidents

`Response` is the availability answer built by
`ProximityDispatcherAgent.run` (`src/agents/proximity_dispatcher_agent.py`
lines 141-153) and consumed by the coordinator.  The numeric type is a
parameter: the dispatcher computes real numbers (haversine), while the
coordinator's logic over received answers is stated over `ℚ`.  The
free-text `reasoning` field is omitted: no modelled logic inspects it
(the coordinator only copies/prints it).  The source coordinator reads
a missing `distance_km` as 9999 (`x.get("distance_km", 9999)`); every
answer the dispatcher builds carries the field, so it is total here. -/

structure Response (α : Type) where
  station_name : String
  distance_km : α
  eta_minutes : α
  terrain : String
  vehicle : String
  available : Bool
  capable : Bool
  confidence : α
  staff_available : ℕ
  equipment : List String
deriving DecidableEq, Inhabited

structure GPS where
  lat : ℚ
  lon : ℚ
deriving DecidableEq, Inhabited

/-- The incident record fields the modelled logic reads
(`incident["id"]`, `incident.get("species")`, `incident.get("gps")`,
`incident.get("injury_severity")`).  The remaining attributes of the
ingested record (priority, reporter reliability, ...) are read by no
claim-relevant code path. -/
structure Incident where
  id : String
  species : String
  gps : GPS
  injury_severity : String
deriving DecidableEq, Inhabited

/-- The dispatch order dict built by `CoordinatorAgent.run`
(`src/agents/coordinator_agent.py` lines 97-106); `reasoning` omitted
as in `Response`. -/
structure DispatchOrder (α : Type) where
  incident_id : String
  station_name : String
  distance_km : α
  eta_minutes : α
  vehicle : String
  terrain : String
  /-- the `all_options` field, "for transparency" -/
  all_options : List (Response α)
deriving DecidableEq, Inhabited

/-! ## Responder unit — `src/agents/proximity_dispatcher_agent.py` -/

/-- Per-station state: the constructor fields of
`ProximityDispatcherAgent.__init__` (lines 20-31).  Coordinates are
the decimal configuration constants, hence `ℚ`. -/
structure Station where
  station_name : String
  lat : ℚ
  lon : ℚ
  vehicles : List String
  equipment : List String
  staff_count : ℕ
  description : String
  is_busy : Bool
  current_incident : Option String
deriving DecidableEq, Inhabited

/-- `math.radians` as used by `calculate_distance_km`. -/
noncomputable def radians (x : ℝ) : ℝ := x * (Real.pi / 180)

/-- `ProximityDispatcherAgent.calculate_distance_km` (lines 35-47):
the haversine formula with Earth radius `R = 6371` km.  Written as the
source computes it: `a = sin(dlat/2)^2 + cos(lat1)cos(lat2)sin(dlon/2)^2`,
`c = 2*asin(sqrt(a))`, result `R*c`. -/
noncomputable def calculate_distance_km (lat1 lon1 lat2 lon2 : ℝ) : ℝ :=
  6371 *
    (2 * Real.arcsin (Real.sqrt
      (Real.sin (radians (lat2 - lat1) / 2) ^ 2 +
        Real.cos (radians lat1) * Real.cos (radians lat2) *
          Real.sin (radians (lon2 - lon1) / 2) ^ 2)))

/-- `ProximityDispatcherAgent.estimate_eta_minutes` (lines 49-72):
effective speed is `min(base_speed * terrain_multiplier,
vehicle_max_speed * 0.8)`; ETA is 5 minutes prep plus
`distance / effective_speed * 60`. -/
def estimate_eta_minutes {α : Type} [LinearOrderedField α]
    (distance_km : α) (terrain_type vehicle_type : String) : α :=
  let terrain_multiplier : α := terrainSpeedMultiplier terrain_type
  let vehicle_max_speed : α := vehicleMaxSpeed vehicle_type
  let base_speed : α := get_base_speed_kmh
  let effective_speed := min (base_speed * terrain_multiplier) (vehicle_max_speed * (4/5))
  let prep_time : α := 5
  let travel_time := (distance_km / effective_speed) * 60
  prep_time + travel_time

/-- The `required_equipment` set built inside `assess_capability`
(lines 84-89), as a list (set semantics are used only through the
subset test below). -/
def required_equipment (incident : Incident) : List String :=
  (if incident.injury_severity ∈ ["high", "critical"] then ["first_aid"] else []) ++
    (if incident.species ∈ ["elephant", "leopard", "sloth_bear"] then ["tranquilizer_kit"] else [])

/-- `required_equipment.issubset(set(self.equipment))`. -/
def has_required_equipment (st : Station) (incident : Incident) : Bool :=
  (required_equipment incident).all (fun e => st.equipment.contains e)

structure Capability where
  capable : Bool
  best_vehicle : String
  confidence : ℚ
deriving DecidableEq, Inhabited

/-- `ProximityDispatcherAgent.assess_capability` (lines 74-104).  The
source's `self.vehicles[0]` default is `headD ""` here; every
configured station has a non-empty vehicle list. -/
def assess_capability (st : Station) (incident : Incident) : Capability :=
  let has_equipment := has_required_equipment st incident
  let best_vehicle :=
    if incident.injury_severity = "critical" && st.vehicles.contains "4x4_Ambulance" then
      "4x4_Ambulance"
    else if incident.species = "elephant" && st.vehicles.contains "Rescue_Truck" then
      "Rescue_Truck"
    else st.vehicles.headD ""
  { capable := has_equipment && !st.is_busy,
    best_vehicle := best_vehicle,
    confidence := if has_equipment then 9/10 else 1/2 }

/-- Python's `round(x, ndigits)` on a real, modelled with Mathlib's
nearest-integer `round` (the half-way tie rule differs from Python's
banker's rounding; no claim depends on ties). -/
noncomputable def pyRound (x : ℝ) (ndigits : ℕ) : ℝ :=
  ((round (x * 10 ^ ndigits) : ℤ) : ℝ) / 10 ^ ndigits

/-- The availability answer built in the `request_availability` branch
of `ProximityDispatcherAgent.run` (lines 117-153). -/
noncomputable def availabilityResponse (st : Station) (incident : Incident) : Response ℝ :=
  let distance_km :=
    calculate_distance_km (st.lat : ℝ) (st.lon : ℝ) (incident.gps.lat : ℝ) (incident.gps.lon : ℝ)
  let terrain := get_terrain_type incident.gps.lat incident.gps.lon
  let capability := assess_capability st incident
  let best_vehicle := capability.best_vehicle
  let eta_minutes := estimate_eta_minutes distance_km terrain best_vehicle
  { station_name := st.station_name,
    distance_km := pyRound distance_km 2,
    eta_minutes := pyRound eta_minutes 1,
    terrain := terrain,
    vehicle := best_vehicle,
    available := !st.is_busy,
    capable := capability.capable,
    confidence := (capability.confidence : ℝ),
    staff_available := st.staff_count,
    equipment := st.equipment }

/-- Messages sent by the responder unit's handlers. -/
inductive StationPayload where
  /-- `availability_response` content: `{"incident_id": ..., "response": ...}` -/
  | availability (incident_id : String) (response : Response ℝ)
  /-- the `log` content of the `dispatch_order` branch (lines 173-181) -/
  | log_dispatch (station : String) (incident_id : String) (status : String)
      (vehicle : String) (eta_minutes : ℚ)
  /-- `dispatch_acknowledged` content (lines 184-188); free text omitted -/
  | ack (station_name : String) (incident_id : String)

structure StationSent where
  recipient : String
  performative : String
  payload : StationPayload

/-- The `request_availability` branch of `ProximityDispatcherAgent.run`
(lines 117-160): always replies to the sender (`msg.get("from")`) with
one `availability_response`; station state is not modified. -/
noncomputable def handleRequestAvailability (st : Station) (sender : String)
    (incident : Incident) : List StationSent :=
  [⟨sender, "availability_response", .availability incident.id (availabilityResponse st incident)⟩]

/-- The `dispatch_order` branch of `ProximityDispatcherAgent.run`
(lines 162-188): unconditionally sets `is_busy := true`, records the
order's incident as `current_incident`, logs, and acknowledges to the
sender.  There is no rejection path. -/
def handleDispatchOrder (st : Station) (sender : String) (order : DispatchOrder ℚ) :
    Station × List StationSent :=
  ({ st with is_busy := true, current_incident := some order.incident_id },
   [⟨"BlackboardAgent", "log",
      .log_dispatch st.station_name order.incident_id "en_route" order.vehicle order.eta_minutes⟩,
    ⟨sender, "dispatch_acknowledged", .ack st.station_name order.incident_id⟩])

/-- The `incident_resolved` branch of `ProximityDispatcherAgent.run`
(lines 190-194): sets `is_busy := false` and clears
`current_incident`.  The signal's `incident_id` is read only by a
`print`; the state update does not consult it. -/
def handleIncidentResolved (st : Station) (_incident_id : Option String) : Station :=
  { st with is_busy := false, current_incident := none }

/-! ## Dispatch coordinator — `src/agents/coordinator_agent.py` -/

/-- An envelope as seen by the coordinator's collection loop (lines
58-70).  The performative tag is in the constructor: an
`availability_response` carries `content["incident_id"]` and
`content["response"]`; a `triage_summary` carries `content["triage"]`
(opaque to the coordinator); anything else is kept whole so it can be
requeued. -/
inductive CoordMsg where
  | availability_response (sender : String) (incident_id : String) (response : Response ℚ)
  | triage_summary (sender : String) (triage : JValue)
  | other (sender : String) (performative : String) (content : JValue)

/-- The coordinator state a collection round accumulates: the
`responses` list, the `triage_by_incident` dict, and the messages put
back onto its own inbox (`await self.inbox.put(m)` appends). -/
structure CollectState where
  responses : List (Response ℚ)
  triage_by_incident : List (String × JValue)
  requeued : List CoordMsg

/-- Python dict assignment `d[k] = v`: replace in place when the key
exists, append otherwise. -/
def dictSet {β : Type} (d : List (String × β)) (k : String) (v : β) : List (String × β) :=
  if (d.lookup k).isSome then d.map (fun p => if p.1 = k then (k, v) else p)
  else d ++ [(k, v)]

/-- One iteration of the collection loop (`CoordinatorAgent.run` lines
61-68): an `availability_response` is appended to `responses` with no
check of its `incident_id`; a `triage_summary` is stored under the
*current* round's incident id (`self.triage_by_incident[incident["id"]]`,
line 65); any other message is requeued onto the coordinator's own
inbox. -/
def collectStep (incident_id : String) (st : CollectState) (m : CoordMsg) : CollectState :=
  match m with
  | .availability_response _ _ r => { st with responses := st.responses ++ [r] }
  | .triage_summary _ t =>
      { st with triage_by_incident := dictSet st.triage_by_incident incident_id t }
  | .other .. => { st with requeued := st.requeued ++ [m] }

/-- The whole collection window for one round, over the arrival-ordered
list of envelopes received before the timeout. -/
def collectRound (incident_id : String) (msgs : List CoordMsg) : CollectState :=
  msgs.foldl (collectStep incident_id) ⟨[], [], []⟩

/-- The availability answer a `CoordMsg` contributes to `responses`. -/
def respOf : CoordMsg → Option (Response ℚ)
  | .availability_response _ _ r => some r
  | _ => none

/-- The messages a `CoordMsg` contributes to the requeue. -/
def requeuedOf : CoordMsg → Option CoordMsg
  | .availability_response .. => none
  | .triage_summary .. => none
  | m@(.other ..) => some m

/-- `available_stations = [r for r in responses if r.get("available") and r.get("capable")]`
(`CoordinatorAgent.run` line 79). -/
def eligibleOf (responses : List (Response ℚ)) : List (Response ℚ) :=
  responses.filter (fun r => r.available && r.capable)

/-- One insertion step of the stable sort modelling
`available_stations.sort(key=lambda x: x.get("distance_km", 9999))`
(line 90): an element is placed before the first strictly-greater-or-
equal key, so elements with equal keys keep their original relative
order. -/
def pyInsertByDist (x : Response ℚ) : List (Response ℚ) → List (Response ℚ)
  | [] => [x]
  | y :: ys =>
      if x.distance_km ≤ y.distance_km then x :: y :: ys else y :: pyInsertByDist x ys

/-- Stable ascending sort by `distance_km`.  Python's `list.sort` is a
stable ascending sort; a stable ascending sort's output is uniquely
determined by the input, so this insertion sort computes the same list
as the source's Timsort. -/
def pySortByDist : List (Response ℚ) → List (Response ℚ)
  | [] => []
  | x :: xs => pyInsertByDist x (pySortByDist xs)

/-- The first element of `l` whose `distance_km` is minimal over `l` —
the specification's "minimum by distance, ties broken by list order".
Used to characterise the selection; the source computes it as
`sorted[0]`. -/
def firstMinByDist (l : List (Response ℚ)) : Option (Response ℚ) :=
  l.find? (fun r => decide (∀ q ∈ l, r.distance_km ≤ q.distance_km))

/-- The `vet_req` dict of the optional vet trigger
(`CoordinatorAgent.run` lines 122-130). -/
structure VetReq where
  incident_id : String
  station_name : String
  location : GPS
  species : String
  injury_severity : String
  triage : Option JValue
  eta_minutes : ℚ

/-- Payloads of the messages the decision phase sends. -/
inductive CoordPayload where
  /-- a `broadcast` to the communication agent: `{"message": ...}` -/
  | notice (message : String)
  /-- `{"no_responses": {"incident_id": ...}}` (line 75) -/
  | log_no_responses (incident_id : String)
  /-- `{"all_busy": {"incident_id": ..., "responses": ...}}` (line 86) -/
  | log_all_busy (incident_id : String) (responses : List (Response ℚ))
  /-- the dispatch order sent to the selected station (line 109) -/
  | dispatch (order : DispatchOrder ℚ)
  /-- `{"dispatch_order": ...}` logged to the blackboard (line 112) -/
  | log_dispatch (order : DispatchOrder ℚ)
  /-- the `inform` to the communication agent (lines 115-118) -/
  | inform (incident : Incident) (order : DispatchOrder ℚ)
  /-- `request_treatment` to the vet agent (line 131) -/
  | request_treatment (req : VetReq)
  /-- `{"request_treatment": ...}` logged (line 132) -/
  | log_request_treatment (req : VetReq)

structure CoordSent where
  recipient : String
  performative : String
  payload : CoordPayload

/-- The dispatch order dict (`CoordinatorAgent.run` lines 97-106). -/
def mkDispatchOrder (incident : Incident) (selected : Response ℚ)
    (responses : List (Response ℚ)) : DispatchOrder ℚ :=
  { incident_id := incident.id,
    station_name := selected.station_name,
    distance_km := selected.distance_km,
    eta_minutes := selected.eta_minutes,
    vehicle := selected.vehicle,
    terrain := selected.terrain,
    all_options := responses }

/-- The decision phase of a round (`CoordinatorAgent.run` lines
72-132), as the list of messages sent, in order.  `enable_vet_trigger`
is the `WILDGUARD_VET_TRIGGER` flag; `triage` is
`self.triage_by_incident.get(incident["id"])`.  Each escalation branch
ends the round (`continue`) after exactly its two messages. -/
def decidePhase (enable_vet_trigger : Bool) (incident : Incident) (triage : Option JValue)
    (responses : List (Response ℚ)) : List CoordSent :=
  if responses.isEmpty then
    [⟨"CommunicationAgent", "broadcast",
       .notice "No ranger stations responded. Escalating incident."⟩,
     ⟨"BlackboardAgent", "log", .log_no_responses incident.id⟩]
  else
    let available_stations := eligibleOf responses
    if available_stations.isEmpty then
      [⟨"CommunicationAgent", "broadcast",
         .notice ("All stations busy or unable to respond to " ++ incident.species ++
           " incident. Monitoring situation.")⟩,
       ⟨"BlackboardAgent", "log", .log_all_busy incident.id responses⟩]
    else
      let selected := (pySortByDist available_stations).headD default
      let order := mkDispatchOrder incident selected responses
      [⟨selected.station_name, "dispatch_order", .dispatch order⟩,
       ⟨"BlackboardAgent", "log", .log_dispatch order⟩,
       ⟨"CommunicationAgent", "inform", .inform incident order⟩] ++
      (if enable_vet_trigger then
        let vet_req : VetReq :=
          ⟨incident.id, selected.station_name, incident.gps, incident.species,
            incident.injury_severity, triage, selected.eta_minutes⟩
        [⟨"VetAgent", "request_treatment", .request_treatment vet_req⟩,
         ⟨"BlackboardAgent", "log", .log_request_treatment vet_req⟩]
      else [])

/-! ## Reasoning-oracle client — `src/crewai_client.py`

`CrewAIClient.run_agent` posts to the gateway and, on any failure
(asyncio timeout, HTTP timeout, HTTP status error, or any other
exception), falls back to `CrewAIClient._stub_response`.  The random
draws the stub makes (`uuid.uuid4`, `random.choice`, `random.randint`,
`random.uniform`, `time.strftime`) are modelled as explicit inputs in
`RandomState`, so the stub is a pure function of the agent name, the
context, and the drawn values. -/

/-- The values the stub's random/clock calls produce on one
invocation. -/
structure RandomState where
  /-- `str(uuid.uuid4())` -/
  uuid : String
  /-- the index drawn by `random.choice` (taken modulo the list length) -/
  choice : ℕ
  /-- the offset drawn by `random.randint(a, b)` (taken modulo `b - a + 1`) -/
  int1 : ℕ
  /-- `round(random.uniform(0.5, 0.9), 2)` as drawn -/
  q1 : ℚ
  /-- `round(random.uniform(20, 80), 1)` as drawn -/
  q2 : ℚ
  /-- `time.strftime("%Y-%m-%dT%H:%M:%SZ", time.gmtime())` -/
  now : String

/-- `(context.get(k) or {})`: the dict under `k`, or `{}` when absent,
`None`, or empty. -/
def ctxDict (ctx : JValue) (k : String) : JValue :=
  match jGet ctx k with
  | some (.obj fields) => .obj fields
  | _ => .obj []

/-- `CrewAIClient._stub_response` (`src/crewai_client.py` lines
44-94), per agent role.  (The source names it with a leading
underscore.) -/
def stub_response (agent_name : String) (ctx : JValue) (rng : RandomState) : JValue :=
  if agent_name = "FieldReporter" then
    let report := ctxDict ctx "report"
    let gps := (jGet report "gps").getD (.obj [("lat", .num 6.91), ("lon", .num 79.87)])
    let text := (jGetStr report "text").getD ""
    let species :=
      match text.splitOn " " with
      | [] => "animal"
      | w :: _ => w
    .obj [("id", .str rng.uuid),
          ("species", .str (if pyIsalpha species then species else "elephant")),
          ("gps", gps),
          ("observed_behavior", .str "limping"),
          ("injury_severity", .str (pyChoice ["low", "medium"] rng.choice)),
          ("reporter_reliability", .num 0.8),
          ("access_difficulty", .str "river"),
          ("priority", .num (2 + (rng.int1 % 3 : ℕ)))]
  else if agent_name = "TriageAgent" then
    let inc := (jGet ctx "incident").getD (.obj [])
    .obj [("incident_id", .str ((jGetStr inc "id").getD rng.uuid)),
          ("priority", .num (pyInt ((jGetNum inc "priority").getD 3) : ℚ)),
          ("required_resources", .arr [.str "ranger_unit"]),
          ("access_difficulty", (jGet inc "access_difficulty").getD (.str "open")),
          ("recommended_actions", .arr [.str "Stabilize animal", .str "Monitor distance"])]
  else if agent_name = "RangerUnitAgent" then
    let unit := ctxDict ctx "unit"
    .obj [("unit_id", .str ((jGetStr unit "unit_id").getD "RangerUnit")),
          ("eta_minutes", .num (5 + (rng.int1 % 16 : ℕ))),
          ("equipment_ready", .bool true),
          ("estimated_success", .num rng.q1),
          ("cost", .num rng.q2)]
  else if agent_name = "CoordinatorAgent" then
    let bids :=
      match jGet ctx "bids" with
      | some (.arr l) => l
      | _ => []
    let unit_id :=
      match bids with
      | [] => "RangerUnitA"
      | b :: _ => (jGetStr b "unit_id").getD ""
    .obj [("awarded_unit_id", .str unit_id),
          ("reason", .str "stub: min eta"),
          ("expected_arrival_iso", .str rng.now)]
  else if agent_name = "VetAgent" then
    .obj [("decision", .str "accept"), ("reason", .str "stub"),
          ("expected_treatment_time", .num 30)]
  else if agent_name = "CommunicationWriter" then
    .obj [("message_text",
            .str "WildGuard advisory: Keep distance from wildlife. Team is responding."),
          ("channels", .arr [.str "sms", .str "radio"]),
          ("suggested_time_iso", .str rng.now),
          ("explanation", .str "stub")]
  else .obj []

/-- The possible outcomes of the HTTP call inside
`CrewAIClient.run_agent`: a successful 2xx response with a parsed JSON
body, or one of the caught failure modes (lines 30-42). -/
inductive GatewayOutcome where
  | ok (body : JValue)
  | asyncioTimeout
  | httpTimeout
  | httpStatusError (code : ℕ)
  | otherError

/-- `CrewAIClient.run_agent` (`src/crewai_client.py` lines 14-42).
`USE_REAL` is the constant `True` (line 8), so the stub-mode branch is
dead.  On success the result is `res.json().get("result", {})`; every
caught failure returns `_stub_response` — the function is total and no
failure escapes to the caller. -/
def run_agent (outcome : GatewayOutcome) (agent_name : String) (ctx : JValue)
    (rng : RandomState) : JValue :=
  match outcome with
  | .ok body => (jGet body "result").getD (.obj [])
  | .asyncioTimeout => stub_response agent_name ctx rng
  | .httpTimeout => stub_response agent_name ctx rng
  | .httpStatusError _ => stub_response agent_name ctx rng
  | .otherError => stub_response agent_name ctx rng

/-! ## Schema-validation fallback — `src/agents/triage_agent.py` -/

/-- The fallback triage object (`src/agents/triage_agent.py` lines
41-47): `int(min(5, max(1, inc.get("priority", 3))))` and fixed
fields.  The source reads `inc["id"]` directly (incidents are
validated upstream); absent keys default to `""` here. -/
def triage_fallback (inc : JValue) : JValue :=
  .obj [("incident_id", .str ((jGetStr inc "id").getD "")),
        ("priority", .num (pyInt (min 5 (max 1 ((jGetNum inc "priority").getD 3))) : ℚ)),
        ("required_resources", .arr [.str "ranger_unit"]),
        ("access_difficulty", (jGet inc "access_difficulty").getD (.str "open")),
        ("recommended_actions",
          .arr [.str "Stabilize animal", .str "Monitor from safe distance"])]

/-- The validate-or-substitute step of `TriageAgent.run` (lines
37-47): when `jsonschema.validate` raises `ValidationError` the oracle
result is replaced by the fallback and processing continues. -/
def triageProcess (schema_ok : Bool) (res : JValue) (inc : JValue) : JValue :=
  if schema_ok then res else triage_fallback inc

/-! ## Concrete fixtures

Concrete inputs used to instantiate the theorems below.  Fixtures are
kept separate per property so each is used by exactly one group of
results. -/

def c1Incident : Incident :=
  { id := "INC-1", species := "elephant", gps := ⟨6.35, 81.52⟩, injury_severity := "high" }

def c1r1 : Response ℚ :=
  { station_name := "Yala_HQ", distance_km := 5, eta_minutes := 20, terrain := "scrubland",
    vehicle := "Rescue_Truck", available := true, capable := false, confidence := 0.5,
    staff_available := 15, equipment := ["radio"] }

def c1r2 : Response ℚ :=
  { station_name := "Katagamuwa", distance_km := 2, eta_minutes := 11, terrain := "scrubland",
    vehicle := "4x4_Patrol", available := true, capable := true, confidence := 0.9,
    staff_available := 5, equipment := ["tranquilizer_kit", "radio", "GPS"] }

def c1r3 : Response ℚ :=
  { station_name := "Galge", distance_km := 2, eta_minutes := 12, terrain := "scrubland",
    vehicle := "Rescue_Jeep", available := true, capable := true, confidence := 0.9,
    staff_available := 6, equipment := ["tranquilizer_kit", "first_aid", "radio"] }

def c1r4 : Response ℚ :=
  { station_name := "Palatupana", distance_km := 8, eta_minutes := 25, terrain := "grassland",
    vehicle := "4x4_Ambulance", available := true, capable := true, confidence := 0.9,
    staff_available := 8, equipment := ["tranquilizer_kit", "first_aid", "radio", "GPS"] }

def c1Responses : List (Response ℚ) := [c1r1, c1r2, c1r3, c1r4]

def c2Response : Response ℚ :=
  { station_name := "Palatupana", distance_km := 12.5, eta_minutes := 30, terrain := "scrubland",
    vehicle := "Patrol_Jeep_1", available := true, capable := true, confidence := 0.9,
    staff_available := 8, equipment := ["radio"] }

/-- An availability answer whose `incident_id` names a different
incident than the open round. -/
def c2ForeignMsg : CoordMsg := .availability_response "Palatupana" "INC-2" c2Response

def c3Incident : Incident :=
  { id := "INC-7", species := "leopard", gps := ⟨6.40, 81.48⟩, injury_severity := "medium" }

def c3BusyResponse : Response ℚ :=
  { station_name := "Buttawa", distance_km := 4, eta_minutes := 16, terrain := "scrubland",
    vehicle := "Patrol_Jeep_2", available := false, capable := false, confidence := 0.5,
    staff_available := 4, equipment := ["radio", "GPS", "first_aid"] }

def c4Station : Station :=
  { station_name := "Galge", lat := 6.442565, lon := 81.572456,
    vehicles := ["4x4_Patrol", "Rescue_Jeep"],
    equipment := ["tranquilizer_kit", "first_aid", "radio"], staff_count := 6,
    description := "Eastern sector post near Galge entrance.",
    is_busy := true, current_incident := some "INC-1" }

def c5Station : Station :=
  { station_name := "Katagamuwa", lat := 6.395370, lon := 81.335650,
    vehicles := ["4x4_Patrol", "Motorcycle"],
    equipment := ["tranquilizer_kit", "radio", "GPS"], staff_count := 5,
    description := "Western entry point via Kataragama road.",
    is_busy := true, current_incident := some "INC-3" }

def c5Incident : Incident :=
  { id := "INC-4", species := "sloth_bear", gps := ⟨6.319393, 81.471863⟩,
    injury_severity := "critical" }

def c6Broker : BrokerState := ⟨[("CoordinatorAgent", []), ("Palatupana", [])]⟩

def c6Msg : Envelope :=
  ⟨"id-1", "Palatupana", "broadcast", "availability_response", "payload"⟩

def c9RngA : RandomState := ⟨"uuid-1", 0, 0, 0.7, 50.5, "2025-01-01T00:00:00Z"⟩

def c9RngB : RandomState := ⟨"uuid-1", 1, 0, 0.7, 50.5, "2025-01-01T00:00:00Z"⟩

def c10Station : Station :=
  { station_name := "Palatupana", lat := 6.281451, lon := 81.412595,
    vehicles := ["4x4_Ambulance", "Patrol_Jeep_1"],
    equipment := ["tranquilizer_kit", "first_aid", "radio", "GPS"], staff_count := 8,
    description := "Main entrance - Block 1.",
    is_busy := true, current_incident := some "INC-1" }

def c10Order : DispatchOrder ℚ :=
  { incident_id := "INC-2", station_name := "Palatupana", distance_km := 3.5,
    eta_minutes := 12.4, vehicle := "4x4_Ambulance", terrain := "grassland",
    all_options := [] }

/-! ## Helper lemmas -/

/-- If `find?` with a weaker predicate already returns `a`, and `a`
also satisfies the stronger predicate, `find?` with the stronger
predicate returns `a` as well. -/
theorem find?_strengthen {α : Type} {p q : α → Bool} {a : α} {xs : List α}
    (h : xs.find? p = some a) (hq : q a = true)
    (imp : ∀ r, q r = true → p r = true) : xs.find? q = some a := by
  induction xs with
  | nil => simp at h
  | cons x t ih =>
    by_cases hp : p x = true
    · rw [List.find?_cons_of_pos t hp] at h
      have hxa : x = a := by injection h
      subst hxa
      rw [List.find?_cons_of_pos t hq]
    · rw [List.find?_cons_of_neg t hp] at h
      have hqx : ¬ q x = true := fun hqx => hp (imp x hqx)
      rw [List.find?_cons_of_neg t hqx]
      exact ih h

theorem pyInsertByDist_ne_nil (x : Response ℚ) (l : List (Response ℚ)) :
    pyInsertByDist x l ≠ [] := by
  cases l with
  | nil => simp [pyInsertByDist]
  | cons y ys =>
    unfold pyInsertByDist
    split <;> simp

theorem pySortByDist_eq_nil_iff (l : List (Response ℚ)) :
    pySortByDist l = [] ↔ l = [] := by
  cases l with
  | nil => simp [pySortByDist]
  | cons x xs => simp [pySortByDist, pyInsertByDist_ne_nil]

/-- The head of the stable sort is the first element of the input with
minimal key. -/
theorem pySortByDist_head? (l : List (Response ℚ)) :
    (pySortByDist l).head? = firstMinByDist l := by
  induction l with
  | nil => rfl
  | cons x xs ih =>
    show (pyInsertByDist x (pySortByDist xs)).head? = firstMinByDist (x :: xs)
    rcases hs : pySortByDist xs with _ | ⟨h, t⟩
    · have hxs : xs = [] := (pySortByDist_eq_nil_iff xs).1 hs
      subst hxs
      have hpx : (fun r => decide (∀ q ∈ [x], r.distance_km ≤ q.distance_km)) x = true := by
        simp
      have hfind : List.find? (fun r => decide (∀ q ∈ [x], r.distance_km ≤ q.distance_km)) [x] =
          some x := List.find?_cons_of_pos _ hpx
      rw [firstMinByDist, hfind]
      rfl
    · rw [hs] at ih
      have ihs : firstMinByDist xs = some h := by
        rw [← ih]; rfl
      have hmem : h ∈ xs := List.mem_of_find?_eq_some ihs
      have hminh : ∀ q ∈ xs, h.distance_km ≤ q.distance_km := by
        have := List.find?_some ihs
        simpa using this
      unfold pyInsertByDist
      by_cases hle : x.distance_km ≤ h.distance_km
      · rw [if_pos hle]
        have hpx : (fun r => decide (∀ q ∈ x :: xs, r.distance_km ≤ q.distance_km)) x = true := by
          simp only [decide_eq_true_eq]
          intro q hq
          rcases List.mem_cons.1 hq with hq | hq
          · subst hq; exact le_refl _
          · exact le_trans hle (hminh q hq)
        have hfind :
            List.find? (fun r => decide (∀ q ∈ x :: xs, r.distance_km ≤ q.distance_km)) (x :: xs) =
              some x := List.find?_cons_of_pos _ hpx
        rw [firstMinByDist, hfind]
        rfl
      · rw [if_neg hle]
        have hpx : ¬ (fun r => decide (∀ q ∈ x :: xs, r.distance_km ≤ q.distance_km)) x = true := by
          simp only [decide_eq_true_eq]
          intro hall
          exact hle (hall h (List.mem_cons_of_mem _ hmem))
        have hfind :
            List.find? (fun r => decide (∀ q ∈ x :: xs, r.distance_km ≤ q.distance_km)) (x :: xs) =
              List.find? (fun r => decide (∀ q ∈ x :: xs, r.distance_km ≤ q.distance_km)) xs :=
          List.find?_cons_of_neg _ hpx
        rw [firstMinByDist, hfind]
        have hqh : (fun r => decide (∀ q ∈ x :: xs, r.distance_km ≤ q.distance_km)) h = true := by
          simp only [decide_eq_true_eq]
          intro q hq
          rcases List.mem_cons.1 hq with hq | hq
          · subst hq; exact le_of_lt (not_le.1 hle)
          · exact hminh q hq
        have himp : ∀ r : Response ℚ,
            (fun r => decide (∀ q ∈ x :: xs, r.distance_km ≤ q.distance_km)) r = true →
            (fun r => decide (∀ q ∈ xs, r.distance_km ≤ q.distance_km)) r = true := by
          intro r hr
          simp only [decide_eq_true_eq] at hr ⊢
          intro q hq
          exact hr q (List.mem_cons_of_mem _ hq)
        have ihs' : List.find? (fun r => decide (∀ q ∈ xs, r.distance_km ≤ q.distance_km)) xs =
            some h := ihs
        have := find?_strengthen ihs' hqh himp
        rw [this]
        rfl

/-! ## Claim theorems -/

/-- C1.  In every dispatch round whose set of collected answers
contains at least one eligible answer (`available` and `capable`), the
coordinator's decision phase sends the dispatch order to the eligible
answer with minimum `distance_km`, and among equal minima the one
earliest in arrival-list order wins (the sort is stable, with no
secondary tie-break): the selected answer is exactly the first
eligible answer carrying the minimal distance, the first message sent
is the dispatch order addressed to its station, and exactly one
dispatch order is sent. -/
theorem coordinator_selects_nearest_eligible
    (vt : Bool) (incident : Incident) (triage : Option JValue)
    (responses : List (Response ℚ)) (h : eligibleOf responses ≠ []) :
    ∃ s, firstMinByDist (eligibleOf responses) = some s ∧
      s ∈ eligibleOf responses ∧
      (∀ r ∈ eligibleOf responses, s.distance_km ≤ r.distance_km) ∧
      (eligibleOf responses).find? (fun r => decide (r.distance_km = s.distance_km)) = some s ∧
      (decidePhase vt incident triage responses).head? =
        some ⟨s.station_name, "dispatch_order", .dispatch (mkDispatchOrder incident s responses)⟩ ∧
      (decidePhase vt incident triage responses).countP
        (fun m => m.performative == "dispatch_order") = 1 := by
  rcases hsort : pySortByDist (eligibleOf responses) with _ | ⟨s, t⟩
  · exact absurd ((pySortByDist_eq_nil_iff _).1 hsort) h
  have hfm : firstMinByDist (eligibleOf responses) = some s := by
    rw [← pySortByDist_head?, hsort]; rfl
  have hmem := List.mem_of_find?_eq_some hfm
  have hmin : ∀ r ∈ eligibleOf responses, s.distance_km ≤ r.distance_km := by
    simpa using List.find?_some hfm
  have hrne : responses ≠ [] := by
    intro he
    rw [he] at h
    exact h rfl
  have h1 : responses.isEmpty = false := by
    cases responses with
    | nil => exact absurd rfl hrne
    | cons a l => rfl
  have h2 : (eligibleOf responses).isEmpty = false := by
    rcases heq : eligibleOf responses with _ | ⟨a, l⟩
    · exact absurd heq h
    · rfl
  refine ⟨s, hfm, hmem, hmin, ?_, ?_, ?_⟩
  · have hq : (fun r => decide (r.distance_km = s.distance_km)) s = true := by simp
    have himp : ∀ r : Response ℚ, (fun r => decide (r.distance_km = s.distance_km)) r = true →
        (fun r => decide (∀ q ∈ eligibleOf responses, r.distance_km ≤ q.distance_km)) r = true := by
      intro r hr
      simp only [decide_eq_true_eq] at hr ⊢
      intro q hq'
      rw [hr]
      exact hmin q hq'
    have hfm' : List.find?
        (fun r => decide (∀ q ∈ eligibleOf responses, r.distance_km ≤ q.distance_km))
        (eligibleOf responses) = some s := hfm
    exact find?_strengthen hfm' hq himp
  · simp only [decidePhase, h1, h2, hsort, Bool.false_eq_true, if_false, List.headD_cons,
      List.cons_append, List.head?_cons]
  · cases vt <;>
      simp only [decidePhase, h1, h2, hsort, Bool.false_eq_true, if_false, if_true,
        List.headD_cons, List.cons_append, List.nil_append, List.append_nil] <;>
      rfl

/-- Witness for C1 at a concrete round: four answers, one ineligible,
two eligible answers tied at the minimal distance 2 km — the earlier
one (`Katagamuwa`) wins. -/
theorem coordinator_selects_nearest_eligible_witness :
    eligibleOf c1Responses ≠ [] ∧
    (∃ s, firstMinByDist (eligibleOf c1Responses) = some s ∧
      s ∈ eligibleOf c1Responses ∧
      (∀ r ∈ eligibleOf c1Responses, s.distance_km ≤ r.distance_km) ∧
      (eligibleOf c1Responses).find? (fun r => decide (r.distance_km = s.distance_km)) = some s ∧
      (decidePhase false c1Incident none c1Responses).head? =
        some ⟨s.station_name, "dispatch_order",
          .dispatch (mkDispatchOrder c1Incident s c1Responses)⟩ ∧
      (decidePhase false c1Incident none c1Responses).countP
        (fun m => m.performative == "dispatch_order") = 1) :=
  ⟨by decide, coordinator_selects_nearest_eligible false c1Incident none c1Responses (by decide)⟩

/-- Counterexample to C2 as stated: during a round for incident
`"INC-1"`, an availability answer tagged for incident `"INC-2"` is
appended to the round's answer list (and is not requeued), because the
collection loop never compares the answer's `incident_id` with the
current round's. -/
theorem collect_appends_foreign_incident_answer :
    "INC-2" ≠ "INC-1" ∧
    (collectRound "INC-1" [c2ForeignMsg]).responses = [c2Response] ∧
    (collectRound "INC-1" [c2ForeignMsg]).requeued = [] :=
  ⟨by decide, rfl, rfl⟩

/-- C2 (amended).  During a collection round the coordinator appends
every availability answer to its answer list regardless of the
answer's incident identifier; triage summaries are consumed into the
triage cache (keyed by the current round's incident id) rather than
requeued; only envelopes of other performatives are requeued onto the
coordinator's own mailbox, in arrival order. -/
theorem collect_round_characterization (incident_id : String) (msgs : List CoordMsg) :
    (collectRound incident_id msgs).responses = msgs.filterMap respOf ∧
    (collectRound incident_id msgs).requeued = msgs.filterMap requeuedOf := by
  have key : ∀ (ms : List CoordMsg) (st : CollectState),
      (ms.foldl (collectStep incident_id) st).responses =
        st.responses ++ ms.filterMap respOf ∧
      (ms.foldl (collectStep incident_id) st).requeued =
        st.requeued ++ ms.filterMap requeuedOf := by
    intro ms
    induction ms with
    | nil => intro st; simp
    | cons m t ih =>
      intro st
      cases m with
      | availability_response sender iid r =>
        have h := ih { st with responses := st.responses ++ [r] }
        constructor
        · rw [List.foldl_cons]
          show (t.foldl (collectStep incident_id)
            { st with responses := st.responses ++ [r] }).responses = _
          rw [h.1]
          simp [respOf]
        · rw [List.foldl_cons]
          show (t.foldl (collectStep incident_id)
            { st with responses := st.responses ++ [r] }).requeued = _
          rw [h.2]
          simp [requeuedOf]
      | triage_summary sender tr =>
        have h := ih { st with
          triage_by_incident := dictSet st.triage_by_incident incident_id tr }
        constructor
        · rw [List.foldl_cons]
          show (t.foldl (collectStep incident_id) { st with
            triage_by_incident := dictSet st.triage_by_incident incident_id tr }).responses = _
          rw [h.1]
          simp [respOf]
        · rw [List.foldl_cons]
          show (t.foldl (collectStep incident_id) { st with
            triage_by_incident := dictSet st.triage_by_incident incident_id tr }).requeued = _
          rw [h.2]
          simp [requeuedOf]
      | other sender pf content =>
        have h := ih { st with requeued := st.requeued ++ [.other sender pf content] }
        constructor
        · rw [List.foldl_cons]
          show (t.foldl (collectStep incident_id)
            { st with requeued := st.requeued ++ [.other sender pf content] }).responses = _
          rw [h.1]
          simp [respOf]
        · rw [List.foldl_cons]
          show (t.foldl (collectStep incident_id)
            { st with requeued := st.requeued ++ [.other sender pf content] }).requeued = _
          rw [h.2]
          simp [requeuedOf]
  have h := key msgs ⟨[], [], []⟩
  simpa [collectRound] using h

/-- C3.  A round that ends with zero eligible answers sends no
dispatch order and exactly one escalation notice: when answers exist
but none is eligible, exactly the "all busy" broadcast followed by one
log event; when no answers arrived at all, exactly the "no response"
broadcast followed by one log event. -/
theorem coordinator_escalates_without_eligible
    (vt : Bool) (incident : Incident) (triage : Option JValue)
    (responses : List (Response ℚ))
    (hne : responses ≠ []) (helig : eligibleOf responses = []) :
    decidePhase vt incident triage responses =
      [⟨"CommunicationAgent", "broadcast",
         .notice ("All stations busy or unable to respond to " ++ incident.species ++
           " incident. Monitoring situation.")⟩,
       ⟨"BlackboardAgent", "log", .log_all_busy incident.id responses⟩] ∧
    decidePhase vt incident triage [] =
      [⟨"CommunicationAgent", "broadcast",
         .notice "No ranger stations responded. Escalating incident."⟩,
       ⟨"BlackboardAgent", "log", .log_no_responses incident.id⟩] ∧
    (decidePhase vt incident triage responses).countP
      (fun m => m.performative == "dispatch_order") = 0 ∧
    (decidePhase vt incident triage []).countP
      (fun m => m.performative == "dispatch_order") = 0 ∧
    (decidePhase vt incident triage responses).countP
      (fun m => m.recipient == "CommunicationAgent") = 1 ∧
    (decidePhase vt incident triage []).countP
      (fun m => m.recipient == "CommunicationAgent") = 1 := by
  have h1 : responses.isEmpty = false := by
    cases responses with
    | nil => exact absurd rfl hne
    | cons a l => rfl
  have hmain : decidePhase vt incident triage responses =
      [⟨"CommunicationAgent", "broadcast",
         .notice ("All stations busy or unable to respond to " ++ incident.species ++
           " incident. Monitoring situation.")⟩,
       ⟨"BlackboardAgent", "log", .log_all_busy incident.id responses⟩] := by
    simp [decidePhase, h1, helig]
  have hnil : decidePhase vt incident triage [] =
      [⟨"CommunicationAgent", "broadcast",
         .notice "No ranger stations responded. Escalating incident."⟩,
       ⟨"BlackboardAgent", "log", .log_no_responses incident.id⟩] := by
    simp [decidePhase]
  refine ⟨hmain, hnil, ?_, ?_, ?_, ?_⟩
  · rw [hmain]; rfl
  · rw [hnil]; rfl
  · rw [hmain]; rfl
  · rw [hnil]; rfl

/-- Witness for C3 at a concrete round: one answer, busy and
incapable. -/
theorem coordinator_escalates_without_eligible_witness :
    ([c3BusyResponse] ≠ ([] : List (Response ℚ)) ∧ eligibleOf [c3BusyResponse] = []) ∧
    decidePhase false c3Incident none [c3BusyResponse] =
      [⟨"CommunicationAgent", "broadcast",
         .notice ("All stations busy or unable to respond to " ++ c3Incident.species ++
           " incident. Monitoring situation.")⟩,
       ⟨"BlackboardAgent", "log", .log_all_busy c3Incident.id [c3BusyResponse]⟩] :=
  ⟨⟨by decide, by decide⟩,
    (coordinator_escalates_without_eligible false c3Incident none [c3BusyResponse]
      (by decide) (by decide)).1⟩

/-- Counterexample to C4 as stated: a resolve signal for incident
`"INC-2"` reaches a unit busy with `"INC-1"`.  The claim says a
mismatched signal is a silent no-op leaving the state unchanged; the
handler nonetheless flips `is_busy` to `false` and clears
`current_incident`, because the state update never consults the
signal's incident identifier. -/
theorem resolve_mismatch_not_ignored :
    some "INC-2" ≠ c4Station.current_incident ∧
    c4Station.is_busy = true ∧
    (handleIncidentResolved c4Station (some "INC-2")).is_busy = false ∧
    (handleIncidentResolved c4Station (some "INC-2")).current_incident = none :=
  ⟨by decide, rfl, rfl, rfl⟩

/-- C4 (amended).  Receiving a resolve signal unconditionally flips
`busy` to false and clears `current_incident`, whether or not the
signal's incident identifier matches the stored one; the rest of the
unit's state is unchanged. -/
theorem resolve_always_clears_state (st : Station) (incident_id : Option String) :
    (handleIncidentResolved st incident_id).is_busy = false ∧
    (handleIncidentResolved st incident_id).current_incident = none ∧
    (handleIncidentResolved st incident_id).station_name = st.station_name ∧
    (handleIncidentResolved st incident_id).equipment = st.equipment :=
  ⟨rfl, rfl, rfl, rfl⟩

/-- C5.  Every availability query produces exactly one answer,
addressed to the sender, even when the unit is busy or incapable; in
that answer `available = !busy` (so `available` is false whenever
`busy` is true at evaluation time), and `capable` is the conjunction
of "the required equipment derived from severity and species is a
subset of the held equipment" and "not busy". -/
theorem station_always_answers (st : Station) (sender : String) (incident : Incident) :
    handleRequestAvailability st sender incident =
      [⟨sender, "availability_response",
        .availability incident.id (availabilityResponse st incident)⟩] ∧
    (availabilityResponse st incident).available = !st.is_busy ∧
    (availabilityResponse st incident).capable =
      ((required_equipment incident).all (fun e => st.equipment.contains e) && !st.is_busy) ∧
    (st.is_busy = true → (availabilityResponse st incident).available = false) :=
  ⟨rfl, rfl, rfl, fun h => by simp [availabilityResponse, h]⟩

/-- Witness for C5's conditional part at a busy concrete station. -/
theorem station_always_answers_witness :
    c5Station.is_busy = true ∧
    (availabilityResponse c5Station c5Incident).available = false :=
  ⟨rfl, (station_always_answers c5Station "CoordinatorAgent" c5Incident).2.2.2 rfl⟩

/-- C10.  A unit that receives a dispatch order while already busy
with a different incident accepts it unconditionally: `busy` stays
true, `current_incident` is overwritten with the order's incident (the
previous assignment is silently lost), and the acknowledgement is
still sent — there is no rejection path. -/
theorem dispatch_order_overwrites_busy_station
    (st : Station) (sender : String) (order : DispatchOrder ℚ) (prev : String)
    (_hbusy : st.is_busy = true) (hcur : st.current_incident = some prev)
    (hneq : prev ≠ order.incident_id) :
    (handleDispatchOrder st sender order).1.is_busy = true ∧
    (handleDispatchOrder st sender order).1.current_incident = some order.incident_id ∧
    (handleDispatchOrder st sender order).1.current_incident ≠ st.current_incident ∧
    (⟨sender, "dispatch_acknowledged", .ack st.station_name order.incident_id⟩ : StationSent) ∈
      (handleDispatchOrder st sender order).2 := by
  refine ⟨rfl, rfl, ?_, ?_⟩
  · show some order.incident_id ≠ st.current_incident
    rw [hcur]
    intro h
    exact hneq (Option.some.inj h).symm
  · show _ ∈ [_, _]
    exact List.mem_cons_of_mem _ (List.mem_singleton.2 rfl)

/-- Witness for C10: `Palatupana`, busy with `INC-1`, receives an
order for `INC-2`. -/
theorem dispatch_order_overwrites_busy_station_witness :
    (c10Station.is_busy = true ∧ c10Station.current_incident = some "INC-1" ∧
      "INC-1" ≠ c10Order.incident_id) ∧
    ((handleDispatchOrder c10Station "CoordinatorAgent" c10Order).1.is_busy = true ∧
      (handleDispatchOrder c10Station "CoordinatorAgent" c10Order).1.current_incident =
        some c10Order.incident_id ∧
      (handleDispatchOrder c10Station "CoordinatorAgent" c10Order).1.current_incident ≠
        c10Station.current_incident ∧
      (⟨"CoordinatorAgent", "dispatch_acknowledged",
          .ack c10Station.station_name c10Order.incident_id⟩ : StationSent) ∈
        (handleDispatchOrder c10Station "CoordinatorAgent" c10Order).2) :=
  ⟨⟨rfl, rfl, by decide⟩,
    dispatch_order_overwrites_busy_station c10Station "CoordinatorAgent" c10Order "INC-1"
      rfl rfl (by decide)⟩

/-- Appending to every queue preserves lookups, appended. -/
theorem lookup_map_append {l : List (String × List Envelope)} {m : Envelope} {n : String}
    {q : List Envelope} (h : l.lookup n = some q) :
    (l.map (fun p => (p.1, p.2 ++ [m]))).lookup n = some (q ++ [m]) := by
  induction l with
  | nil => simp at h
  | cons p t ih =>
    obtain ⟨k, v⟩ := p
    by_cases hk : n = k
    · subst hk
      simp [List.lookup] at h ⊢
      rw [h]
    · simp [List.lookup, beq_false_of_ne hk] at h ⊢
      exact ih h

/-- Appending only at the key `target` updates that key's lookup. -/
theorem lookup_map_set_self {l : List (String × List Envelope)} {m : Envelope}
    {target : String} {q : List Envelope} (h : l.lookup target = some q) :
    (l.map (fun p => if p.1 = target then (p.1, p.2 ++ [m]) else p)).lookup target =
      some (q ++ [m]) := by
  induction l with
  | nil => simp at h
  | cons p t ih =>
    obtain ⟨k, v⟩ := p
    by_cases hk : target = k
    · subst hk
      have hhead :
          (if (target, v).1 = target then ((target, v).1, (target, v).2 ++ [m]) else (target, v)) =
            (target, v ++ [m]) := if_pos rfl
      rw [List.map_cons, hhead]
      simp [List.lookup] at h ⊢
      rw [h]
    · have hne : ¬ ((k, v).1 = target) := fun he => hk he.symm
      have hhead :
          (if (k, v).1 = target then ((k, v).1, (k, v).2 ++ [m]) else (k, v)) = (k, v) :=
        if_neg hne
      rw [List.map_cons, hhead]
      simp [List.lookup, beq_false_of_ne hk] at h ⊢
      exact ih h

/-- Appending only at the key `target` leaves other lookups
unchanged. -/
theorem lookup_map_set_other {l : List (String × List Envelope)} {m : Envelope}
    {target n : String} (hn : n ≠ target) :
    (l.map (fun p => if p.1 = target then (p.1, p.2 ++ [m]) else p)).lookup n =
      l.lookup n := by
  induction l with
  | nil => simp
  | cons p t ih =>
    obtain ⟨k, v⟩ := p
    by_cases hk : k = target
    · have hhead :
          (if (k, v).1 = target then ((k, v).1, (k, v).2 ++ [m]) else (k, v)) =
            (k, v ++ [m]) := if_pos hk
      rw [List.map_cons, hhead]
      have hnk : n ≠ k := fun he => hn (he.trans hk)
      simp [List.lookup, beq_false_of_ne hnk]
      exact ih
    · have hhead :
          (if (k, v).1 = target then ((k, v).1, (k, v).2 ++ [m]) else (k, v)) = (k, v) :=
        if_neg hk
      rw [List.map_cons, hhead]
      by_cases hnk : n = k
      · subst hnk
        simp [List.lookup]
      · simp [List.lookup, beq_false_of_ne hnk]
        exact ih

/-- C6.  For every published envelope: a broadcast recipient makes the
envelope get appended exactly once to every currently registered
mailbox (including the sender's own, if registered) and logs nothing;
a known specific recipient gets it appended to its own mailbox only;
an unknown recipient leaves the registry unchanged and produces
exactly the drop-log event — `publish` is total, so nothing is raised
to the caller in any case. -/
theorem broker_publish_delivery (b : BrokerState) (msg : Envelope) :
    (msg.recipient = "broadcast" →
      (Broker.publish b msg).1.queues = b.queues.map (fun p => (p.1, p.2 ++ [msg])) ∧
      (Broker.publish b msg).2 = [] ∧
      ∀ n q, b.queues.lookup n = some q →
        (Broker.publish b msg).1.queues.lookup n = some (q ++ [msg])) ∧
    (msg.recipient ≠ "broadcast" →
      ∀ q, b.queues.lookup msg.recipient = some q →
        (Broker.publish b msg).1.queues.lookup msg.recipient = some (q ++ [msg]) ∧
        (∀ n, n ≠ msg.recipient →
          (Broker.publish b msg).1.queues.lookup n = b.queues.lookup n) ∧
        (Broker.publish b msg).2 = []) ∧
    (msg.recipient ≠ "broadcast" →
      b.queues.lookup msg.recipient = none →
      (Broker.publish b msg).1 = b ∧
      (Broker.publish b msg).2 = [.unknownTarget msg.recipient msg.sender msg.id]) := by
  refine ⟨?_, ?_, ?_⟩
  · intro hb
    rw [Broker.publish, if_pos hb]
    exact ⟨rfl, rfl, fun n q h => lookup_map_append h⟩
  · intro hb q h
    rw [Broker.publish, if_neg hb, if_pos (by rw [h]; rfl)]
    exact ⟨lookup_map_set_self h, fun n hn => lookup_map_set_other hn, rfl⟩
  · intro hb h
    rw [Broker.publish, if_neg hb, if_neg (by rw [h]; exact Bool.false_ne_true ∘ id)]
    exact ⟨rfl, rfl⟩

/-- Witness for C6: a broadcast envelope reaches a concrete two-
mailbox registry, landing once in each mailbox (including the
sender's own). -/
theorem broker_publish_delivery_witness :
    c6Msg.recipient = "broadcast" ∧
    (Broker.publish c6Broker c6Msg).1.queues.lookup "CoordinatorAgent" = some ([] ++ [c6Msg]) ∧
    (Broker.publish c6Broker c6Msg).1.queues.lookup "Palatupana" = some ([] ++ [c6Msg]) :=
  ⟨rfl,
    ((broker_publish_delivery c6Broker c6Msg).1 rfl).2.2 "CoordinatorAgent" [] (by decide),
    ((broker_publish_delivery c6Broker c6Msg).1 rfl).2.2 "Palatupana" [] (by decide)⟩

/-- The terrain multiplier is positive for every terrain label
(including the unknown-terrain fallback). -/
theorem terrainSpeedMultiplier_pos (t : String) : (0 : ℚ) < terrainSpeedMultiplier t := by
  unfold terrainSpeedMultiplier
  split_ifs <;> norm_num

/-- The vehicle top speed is positive for every vehicle label
(including the unknown-vehicle fallback). -/
theorem vehicleMaxSpeed_pos (v : String) : (0 : ℚ) < vehicleMaxSpeed v := by
  unfold vehicleMaxSpeed
  split_ifs <;> norm_num

/-- The effective speed used by `estimate_eta_minutes` is positive. -/
theorem effective_speed_pos (t v : String) :
    (0 : ℚ) < min (get_base_speed_kmh * terrainSpeedMultiplier t) (vehicleMaxSpeed v * (4/5)) := by
  apply lt_min
  · have := terrainSpeedMultiplier_pos t
    have h40 : (0 : ℚ) < get_base_speed_kmh := by norm_num [get_base_speed_kmh]
    exact mul_pos h40 this
  · have := vehicleMaxSpeed_pos v
    have h45 : (0 : ℚ) < (4/5 : ℚ) := by norm_num
    exact mul_pos this h45

/-- C7.  `eta` returns `5 + distance / effective_speed * 60` minutes
with `effective_speed = min(base_speed * terrain_multiplier,
vehicle_max_speed * 0.8)`, the terrain multiplier looked up from the
static table with fallback `0.7` for unknown terrain; consequently
`eta` is monotonically non-decreasing in the distance for fixed
terrain and vehicle, and non-increasing in the terrain speed
multiplier for a fixed non-negative distance. -/
theorem eta_formula_and_monotone (d d' : ℚ) (t t' v u : String)
    (hd : 0 ≤ d) (hdd : d ≤ d')
    (hm : (terrainSpeedMultiplier t : ℚ) ≤ terrainSpeedMultiplier t')
    (hu : u ∉ ["forest_dense", "scrubland", "grassland", "wetland", "road"]) :
    estimate_eta_minutes d t v =
      5 + d / (min (get_base_speed_kmh * terrainSpeedMultiplier t)
        (vehicleMaxSpeed v * (4/5))) * 60 ∧
    estimate_eta_minutes d t v ≤ estimate_eta_minutes d' t v ∧
    estimate_eta_minutes d t' v ≤ estimate_eta_minutes d t v ∧
    (terrainSpeedMultiplier u : ℚ) = 7/10 := by
  refine ⟨rfl, ?_, ?_, ?_⟩
  · show 5 + d / (min (get_base_speed_kmh * terrainSpeedMultiplier t)
      (vehicleMaxSpeed v * (4/5))) * 60 ≤
      5 + d' / (min (get_base_speed_kmh * terrainSpeedMultiplier t)
        (vehicleMaxSpeed v * (4/5))) * 60
    have hs := effective_speed_pos t v
    apply add_le_add_left
    apply mul_le_mul_of_nonneg_right _ (by norm_num : (0:ℚ) ≤ 60)
    exact (div_le_div_iff_of_pos_right hs).2 hdd
  · show 5 + d / (min (get_base_speed_kmh * terrainSpeedMultiplier t')
      (vehicleMaxSpeed v * (4/5))) * 60 ≤
      5 + d / (min (get_base_speed_kmh * terrainSpeedMultiplier t)
        (vehicleMaxSpeed v * (4/5))) * 60
    have hs := effective_speed_pos t v
    have hss : min (get_base_speed_kmh * terrainSpeedMultiplier t)
        (vehicleMaxSpeed v * (4/5)) ≤
        min (get_base_speed_kmh * terrainSpeedMultiplier t')
          ((vehicleMaxSpeed v : ℚ) * (4/5)) := by
      apply min_le_min _ le_rfl
      exact mul_le_mul_of_nonneg_left hm (by norm_num [get_base_speed_kmh])
    apply add_le_add_left
    apply mul_le_mul_of_nonneg_right _ (by norm_num : (0:ℚ) ≤ 60)
    exact div_le_div_of_nonneg_left hd hs hss
  · simp only [List.mem_cons, not_or] at hu
    obtain ⟨h1, h2, h3, h4, h5, _⟩ := hu
    unfold terrainSpeedMultiplier
    rw [if_neg h1, if_neg h2, if_neg h3, if_neg h4, if_neg h5]

/-- Witness for C7: distances 1 ≤ 2 km, terrains wetland
(multiplier 1/5) vs road (3/2), vehicle Motorcycle, unknown terrain
label "swamp". -/
theorem eta_formula_and_monotone_witness :
    ((0:ℚ) ≤ 1 ∧ (1:ℚ) ≤ 2 ∧
      (terrainSpeedMultiplier "wetland" : ℚ) ≤ terrainSpeedMultiplier "road" ∧
      "swamp" ∉ ["forest_dense", "scrubland", "grassland", "wetland", "road"]) ∧
    estimate_eta_minutes (1:ℚ) "wetland" "Motorcycle" ≤
      estimate_eta_minutes (2:ℚ) "wetland" "Motorcycle" ∧
    (terrainSpeedMultiplier "swamp" : ℚ) = 7/10 :=
  ⟨⟨by norm_num, by norm_num, by
      rw [show (terrainSpeedMultiplier "wetland" : ℚ) = 1/5 from rfl,
        show (terrainSpeedMultiplier "road" : ℚ) = 3/2 from rfl]
      norm_num, by decide⟩,
    (eta_formula_and_monotone 1 2 "wetland" "road" "Motorcycle" "swamp"
      (by norm_num) (by norm_num) (by
      rw [show (terrainSpeedMultiplier "wetland" : ℚ) = 1/5 from rfl,
        show (terrainSpeedMultiplier "road" : ℚ) = 3/2 from rfl]
      norm_num) (by decide)).2.1,
    (eta_formula_and_monotone 1 2 "wetland" "road" "Motorcycle" "swamp"
      (by norm_num) (by norm_num) (by
      rw [show (terrainSpeedMultiplier "wetland" : ℚ) = 1/5 from rfl,
        show (terrainSpeedMultiplier "road" : ℚ) = 3/2 from rfl]
      norm_num) (by decide)).2.2.2⟩

/-- C8.  The distance function is the haversine great-circle distance
with fixed Earth radius 6371 km; being a pure function it is
deterministic, it is symmetric in its two coordinate pairs, and it is
zero on identical coordinates. -/
theorem haversine_symm_and_zero (lat1 lon1 lat2 lon2 : ℝ) :
    calculate_distance_km lat1 lon1 lat2 lon2 = calculate_distance_km lat2 lon2 lat1 lon1 ∧
    calculate_distance_km lat1 lon1 lat1 lon1 = 0 := by
  constructor
  · have hs : ∀ u v : ℝ,
        Real.sin (radians (u - v) / 2) ^ 2 = Real.sin (radians (v - u) / 2) ^ 2 := by
      intro u v
      have h : radians (u - v) / 2 = -(radians (v - u) / 2) := by
        unfold radians; ring
      rw [h, Real.sin_neg]
      ring
    unfold calculate_distance_km
    rw [hs lat2 lat1, hs lon2 lon1,
      mul_comm (Real.cos (radians lat1)) (Real.cos (radians lat2))]
  · unfold calculate_distance_km
    simp [radians]

/-- Counterexample to C9 as stated: the fallback substituted on an
oracle timeout is not deterministic.  Two invocations for the
`FieldReporter` role that differ only in the `random.choice` draw
produce fallback objects with different `injury_severity` fields
(`"low"` vs `"medium"`). -/
theorem stub_fallback_not_deterministic :
    jGetStr (run_agent .asyncioTimeout "FieldReporter" (.obj []) c9RngA) "injury_severity" =
      some "low" ∧
    jGetStr (run_agent .asyncioTimeout "FieldReporter" (.obj []) c9RngB) "injury_severity" =
      some "medium" ∧
    (some "low" : Option String) ≠ some "medium" :=
  ⟨rfl, rfl, by decide⟩

/-- C9 (amended).  Every failure mode of the oracle call (asyncio
timeout, HTTP timeout, HTTP status error, any other exception) makes
the caller substitute the stub fallback object for the requested role
and proceed — the call is total and no failure propagates — and a
schema-validation failure likewise substitutes the documented fallback
object; however, the substituted stub is not deterministic for every
role: for `FieldReporter` and `RangerUnitAgent` it embeds freshly
drawn random values. -/
theorem oracle_failure_substitutes_fallback (agent_name : String) (ctx : JValue)
    (rng : RandomState) (code : ℕ) (res inc : JValue) :
    run_agent .asyncioTimeout agent_name ctx rng = stub_response agent_name ctx rng ∧
    run_agent .httpTimeout agent_name ctx rng = stub_response agent_name ctx rng ∧
    run_agent (.httpStatusError code) agent_name ctx rng = stub_response agent_name ctx rng ∧
    run_agent .otherError agent_name ctx rng = stub_response agent_name ctx rng ∧
    triageProcess false res inc = triage_fallback inc :=
  ⟨rfl, rfl, rfl, rfl, rfl⟩
